import Mathlib

/-!
Verification of the fsmvhdlgenerator core: boolean-condition expressions,
their VHDL lowering, and the State/Transition set layer.

The repository delegates its expression trees to the external boolean.py
library, which is not part of the sources; those parts (the expression
datatype, the parser, substitution/simplification, and the truthiness of an
expression object) are modelled from the specification and are marked as
such.  Everything else (the VHDL lowering, the set-level operations on
states and transitions, the filtered collections) is translated directly
from the repository sources.
-/

namespace FsmVhdl

/-- Modelled from the spec: the immutable boolean-expression datatype of the
expression engine (provided by the external boolean.py dependency, absent
from the sources).  Variants: Literal, Variable, Not, and n-ary And / Or. -/
inductive BExpr where
  | lit (b : Bool)
  | var (n : String)
  | not (e : BExpr)
  | and (args : List BExpr)
  | or (args : List BExpr)

mutual

/-- Modelled from the spec: symbols(expr), the set of distinct variable names
occurring in an expression (boolean.py Expression.symbols).  Rendered as a
duplicate-free list. -/
def symbols : BExpr → List String
  | .lit _ => []
  | .var n => [n]
  | .not e => symbols e
  | .and args => (symbolsList args).dedup
  | .or args => (symbolsList args).dedup

/-- The concatenated symbols of a list of operands (deduplicated by the
caller, matching the set union over the operands). -/
def symbolsList : List BExpr → List String
  | [] => []
  | e :: es => symbols e ++ symbolsList es

end

/-- Operator precedence from the _operation_list of AbstractCondition in
condition.py: variable/literal 0, or 1, and 2, not 3. -/
def exprPrecedence : BExpr → Nat
  | .lit _ => 0
  | .var _ => 0
  | .or _ => 1
  | .and _ => 2
  | .not _ => 3

/-- Whether the expression has an operator at its root (Not, And or Or). -/
def isOperatorNode : BExpr → Bool
  | .not _ => true
  | .and _ => true
  | .or _ => true
  | _ => false

mutual

/-- The recursive worker _convert_r of AbstractCondition._vhdl in
condition.py.  The second argument is the precedence demanded by the parent
context (last_operator_precednce in the source). -/
def convertR : BExpr → Nat → String
  | .lit b, _ => if b then "true" else "false"
  | .var n, _ => n ++ "='1'"
  | .not e, _ =>
      match symbols (BExpr.not e) with
      | [n] => n ++ "='0'"
      | _ => "not (" ++ convertR e 3 ++ ")"
  | .and args, last =>
      let s := String.intercalate " and " (convertList args 2)
      if 2 < last then "(" ++ s ++ ")" else s
  | .or args, last =>
      let s := String.intercalate " or " (convertList args 1)
      if 1 < last then "(" ++ s ++ ")" else s

/-- The lowered texts of a list of operands, each lowered with the parent
operator's precedence as the demanded precedence. -/
def convertList : List BExpr → Nat → List String
  | [], _ => []
  | e :: es, p => convertR e p :: convertList es p

end

/-- AbstractCondition._vhdl: lower an expression to VHDL relational text,
starting with a demanded precedence of 0. -/
def vhdl (e : BExpr) : String := convertR e 0

/-- Modelled from the spec: the tokens of the expression grammar.  OR is
written with a comma, a pipe or the word "or"; AND with an ampersand or
"and"; NOT with a bang, a tilde or "not"; atoms are the case-insensitive
literals TRUE/FALSE and identifiers. -/
inductive Tok where
  | orT
  | andT
  | notT
  | lparen
  | rparen
  | litT (b : Bool)
  | ident (s : String)

/-- Whether a character may start an identifier. -/
def isIdentStart (c : Char) : Bool :=
  (('A' ≤ c && c ≤ 'Z') || ('a' ≤ c && c ≤ 'z'))

/-- Whether a character may continue an identifier. -/
def isIdentChar (c : Char) : Bool :=
  isIdentStart c || ('0' ≤ c && c ≤ '9') || c = '_'

/-- Classify a lexed word: the case-insensitive literals TRUE and FALSE, the
word operators, or an identifier. -/
def wordTok (w : String) : Tok :=
  let lw := String.mk (w.toList.map Char.toLower)
  if lw = "true" then .litT true
  else if lw = "false" then .litT false
  else if lw = "or" then .orT
  else if lw = "and" then .andT
  else if lw = "not" then .notT
  else .ident w

/-- Modelled from the spec: the tokenizer of the expression grammar, as a
fuel-indexed function (each consumed token removes at least one character,
so a fuel of one more than the character count always suffices).  Fails
(none) on a character that starts no token. -/
def tokenizeF : Nat → List Char → Option (List Tok)
  | _, [] => some []
  | 0, _ :: _ => none
  | fuel + 1, c :: cs =>
    if c = ' ' then tokenizeF fuel cs
    else if c = ',' || c = '|' then (tokenizeF fuel cs).map (Tok.orT :: ·)
    else if c = '&' then (tokenizeF fuel cs).map (Tok.andT :: ·)
    else if c = '!' || c = '~' then (tokenizeF fuel cs).map (Tok.notT :: ·)
    else if c = '(' then (tokenizeF fuel cs).map (Tok.lparen :: ·)
    else if c = ')' then (tokenizeF fuel cs).map (Tok.rparen :: ·)
    else if isIdentStart c then
      let word := String.mk (c :: cs.takeWhile isIdentChar)
      (tokenizeF fuel (cs.dropWhile isIdentChar)).map (wordTok word :: ·)
    else none

/-- The tokenizer applied with always-sufficient fuel. -/
def tokenize (cs : List Char) : Option (List Tok) :=
  tokenizeF (cs.length + 1) cs

mutual

/-- Modelled from the spec: the recursive-descent parser for the grammar, as
a fuel-indexed function whose second argument is the precedence level
(0 = OR, 1 = AND, 2 = NOT, 3 and above = atom).  OR binds loosest, then AND,
then NOT, then atoms; binary operators are n-ary (a chain of two or more
operands becomes one node with the operand list); parentheses override
precedence. -/
def parseLvl : Nat → Nat → List Tok → Option (BExpr × List Tok)
  | 0, _, _ => none
  | fuel + 1, 0, ts => do
      let (e, r) ← parseLvl fuel 1 ts
      let (es, r') ← parseOrTail fuel r
      some (if es.isEmpty then (e, r') else (.or (e :: es), r'))
  | fuel + 1, 1, ts => do
      let (e, r) ← parseLvl fuel 2 ts
      let (es, r') ← parseAndTail fuel r
      some (if es.isEmpty then (e, r') else (.and (e :: es), r'))
  | fuel + 1, 2, ts =>
      match ts with
      | Tok.notT :: rest => do
          let (e, r) ← parseLvl fuel 2 rest
          some (.not e, r)
      | _ => parseLvl fuel 3 ts
  | fuel + 1, _, ts =>
      match ts with
      | Tok.litT b :: rest => some (.lit b, rest)
      | Tok.ident s :: rest => some (.var s, rest)
      | Tok.lparen :: rest => do
          let (e, r) ← parseLvl fuel 0 rest
          match r with
          | Tok.rparen :: r' => some (e, r')
          | _ => none
      | _ => none

/-- Collect the further OR-separated operands after the first one. -/
def parseOrTail : Nat → List Tok → Option (List BExpr × List Tok)
  | 0, _ => none
  | fuel + 1, ts =>
      match ts with
      | Tok.orT :: rest => do
          let (e, r) ← parseLvl fuel 1 rest
          let (es, r') ← parseOrTail fuel r
          some (e :: es, r')
      | _ => some ([], ts)

/-- Collect the further AND-separated operands after the first one. -/
def parseAndTail : Nat → List Tok → Option (List BExpr × List Tok)
  | 0, _ => none
  | fuel + 1, ts =>
      match ts with
      | Tok.andT :: rest => do
          let (e, r) ← parseLvl fuel 2 rest
          let (es, r') ← parseAndTail fuel r
          some (e :: es, r')
      | _ => some ([], ts)

end

/-- Modelled from the spec: parse(text).  Tokenizes, parses a full OR-level
expression and requires all input to be consumed; returns none on a syntax
error (where the source raises ExpressionSyntaxError). -/
def parse (text : String) : Option BExpr := do
  let toks ← tokenize text.toList
  let (e, rest) ← parseLvl (4 * toks.length + 8) 0 toks
  if rest.isEmpty then some e else none

mutual

/-- Modelled from the spec: the variable-replacement half of substitute:
every variable bound in the bindings becomes the corresponding Literal,
variables not in the bindings are left symbolic. -/
def substVars (b : List (String × Bool)) : BExpr → BExpr
  | .lit v => .lit v
  | .var n =>
      match b.lookup n with
      | some v => .lit v
      | none => .var n
  | .not e => .not (substVars b e)
  | .and args => .and (substVarsList b args)
  | .or args => .or (substVarsList b args)

/-- Variable replacement mapped over a list of operands. -/
def substVarsList (b : List (String × Bool)) : List BExpr → List BExpr
  | [] => []
  | e :: es => substVars b e :: substVarsList b es

end

/-- Whether an expression is the literal with the given truth value. -/
def isLit (v : Bool) : BExpr → Bool
  | .lit b => b == v
  | _ => false

mutual

/-- Modelled from the spec: the bottom-up constant simplification applied by
substitute: double-negation elimination and short-circuit AND/OR absorption
and identity laws. -/
def simplifyExpr : BExpr → BExpr
  | .lit v => .lit v
  | .var n => .var n
  | .not e =>
      match simplifyExpr e with
      | .lit v => .lit (!v)
      | .not e' => e'
      | e' => .not e'
  | .and args =>
      let as := simplifyList args
      if as.any (isLit false) then .lit false
      else
        match as.filter (fun e => !isLit true e) with
        | [] => .lit true
        | [e] => e
        | es => .and es
  | .or args =>
      let as := simplifyList args
      if as.any (isLit true) then .lit true
      else
        match as.filter (fun e => !isLit false e) with
        | [] => .lit false
        | [e] => e
        | es => .or es

/-- Simplification mapped over a list of operands. -/
def simplifyList : List BExpr → List BExpr
  | [] => []
  | e :: es => simplifyExpr e :: simplifyList es

end

/-- AbstractCondition.evaluate in condition.py: substitute the bindings into
the expression and simplify (expression.subs with simplify=True; the
substitution and simplification themselves are modelled from the spec,
being part of the absent boolean.py dependency). -/
def condEvaluate (e : BExpr) (b : List (String × Bool)) : BExpr :=
  simplifyExpr (substVars b e)

/-- A State of state.py: a Python object identity (id), a name and an
OutputsDict mapping output names to stored 0/1 values.  States compare by
object identity, so the id stands for the instance. -/
structure State where
  id : Nat
  name : String
  outputs : List (String × Nat)

/-- A StateSet is a set of State instances; rendered as the list of its
member states (distinct identities). -/
abbrev StateSet := List State

/-- AbstractState.output_identifiers: the names of the state's outputs. -/
def outputIdentifiers (st : State) : List String :=
  st.outputs.map Prod.fst

/-- StateSet._output_identifiers: the multiset (Counter) of output names
over all member states, rendered as the concatenated list of every member's
output identifiers. -/
def stateSetOutputIdentifiers (ss : StateSet) : List String :=
  (ss.map outputIdentifiers).flatten

/-- StateSet._name_identifiers: the multiset (Counter) of member names,
rendered as the list of every member's name. -/
def stateSetNameIdentifiers (ss : StateSet) : List String :=
  ss.map State.name

/-- StateSet.is_valid in state.py: every distinct output name must be
carried by a number of states equal to the number of distinct output names
(outputs[val] == len(outputs) for a Counter), and the number of states must
equal the number of distinct names (len(self) == len(_name_identifiers)). -/
def isValid (ss : StateSet) : Bool :=
  let outs := stateSetOutputIdentifiers ss
  (outs.dedup.all (fun v => outs.count v == outs.dedup.length)) &&
  (ss.length == (stateSetNameIdentifiers ss).dedup.length)

/-- The invariant the spec states for is_valid, in the spec's words: (a) no
two members share the same name, and (b) every distinct output name appears
on the same number of members as every other distinct output name. -/
def specValidInvariant (ss : StateSet) : Bool :=
  let outs := stateSetOutputIdentifiers ss
  decide (stateSetNameIdentifiers ss).Nodup &&
  (outs.dedup.all (fun v => outs.dedup.all (fun w => outs.count v == outs.count w)))

/-- StateSet.__getitem__ in state.py: the sub-StateSet of states whose name
equals the given name. -/
def stateSetGetItem (ss : StateSet) (stateName : String) : StateSet :=
  ss.filter (fun st => stateName == st.name)

/-- StateSet.__delitem__ in state.py: the body computes self - self[name]
and assigns it to the local variable self, which only rebinds the local
name; the set object the caller holds is never mutated, so the resulting
membership is the receiver's unchanged membership. -/
def stateSetDelItem (ss : StateSet) (stateName : String) : StateSet :=
  let _rebound_local_self :=
    ss.filter (fun st => !(stateSetGetItem ss stateName).any (fun t => t.id == st.id))
  ss

/-- The Python error classes raised by the filtered collections and by
from_states. -/
inductive PyErr where
  | valueError
  | typeError
deriving DecidableEq

/-- A value passed to a StateSet method: either a State instance or some
non-State Python value. -/
inductive PyVal where
  | state (s : State)
  | other (n : Nat)

/-- FilteredSet.add in filtered_collections.py, specialised by MonotonicSet
to AbstractState: the value is passed through _value_filter, which raises
TypeError unless it is a State instance; a State is added to the backing
set (by identity). -/
def stateSetAdd (ss : StateSet) (v : PyVal) : Except PyErr StateSet :=
  match v with
  | .state s => .ok (if ss.any (fun t => t.id == s.id) then ss else ss ++ [s])
  | .other _ => .error .typeError

/-- FilteredSet.discard in filtered_collections.py: the value is passed to
the backing set's discard unframed by any filter, so any value is accepted;
a State present in the set is removed, anything else leaves the set
unchanged, and no error is ever raised. -/
def stateSetDiscard (ss : StateSet) (v : PyVal) : Except PyErr StateSet :=
  match v with
  | .state s => .ok (ss.filter (fun t => !(t.id == s.id)))
  | .other _ => .ok ss

/-- A Condition of condition.py: a Python object identity (id) and the
boolean expression it owns.  AbstractCondition and its concrete subclasses
define no structural __eq__, so instances compare by object identity. -/
structure Condition where
  id : Nat
  expr : BExpr

/-- Python equality on Condition objects: the default object identity
equality, since no __eq__ is defined on the Condition classes. -/
def conditionEq (c d : Condition) : Bool := c.id == d.id

/-- A Transition of transition.py: a Python object identity (id), non-owning
references to a source and a destination State (by the states' identities),
and the expression of its guarding Condition. -/
structure Transition where
  id : Nat
  source : Nat
  destination : Nat
  cond : BExpr

/-- A TransitionSet is a set of Transition instances; rendered as the list
of its member transitions (distinct identities). -/
abbrev TransitionSet := List Transition

/-- TransitionSet.sources as a set of state identities: the dedup of the
member transitions' source states. -/
def sourcesOf (ts : TransitionSet) : List Nat :=
  (ts.map Transition.source).dedup

/-- TransitionSet.destinations as a set of state identities: the dedup of
the member transitions' destination states. -/
def destinationsOf (ts : TransitionSet) : List Nat :=
  (ts.map Transition.destination).dedup

/-- TransitionSet.from_states in transition.py.  Builds the set of
transitions matching the source filter and the set matching the destination
filter (each empty when its filter is omitted, since "if source and ..."
fails on None); with mode "and" and both filters supplied it returns their
intersection, otherwise, when mode is "or" or either filter is omitted, it
returns their union, and only in the remaining case (an unrecognized mode
with both filters supplied) raises ValueError. -/
def fromStates (ts : TransitionSet) (source destination : Option Nat)
    (mode : String) : Except PyErr TransitionSet :=
  let sourceTransitions := ts.filter (fun t =>
    match source with
    | some s => t.source == s
    | none => false)
  let destinationTransitions := ts.filter (fun t =>
    match destination with
    | some d => t.destination == d
    | none => false)
  if mode == "and" && source.isSome && destination.isSome then
    .ok (sourceTransitions.filter (fun t =>
      destinationTransitions.any (fun u => u.id == t.id)))
  else if mode == "or" || source.isNone || destination.isNone then
    .ok (sourceTransitions ++ destinationTransitions.filter (fun t =>
      !sourceTransitions.any (fun u => u.id == t.id)))
  else
    .error .valueError

/-- Modelled from the spec: the truthiness test the evaluate filter applies
to the substituted condition.  The spec states that evaluate keeps exactly
the transitions whose condition, after substitution, is the TRUE literal;
the Python truthiness of a boolean.py expression object is part of the
absent dependency. -/
def exprKeptByEvaluate (e : BExpr) : Bool := isLit true e

/-- TransitionSet.evaluate in transition.py: the sub-TransitionSet of
transitions whose condition evaluates, under the given bindings, to a kept
(TRUE) result. -/
def transitionSetEvaluate (ts : TransitionSet) (b : List (String × Bool)) :
    TransitionSet :=
  ts.filter (fun t => exprKeptByEvaluate (condEvaluate t.cond b))

/-- The graph-validity errors of transition.py. -/
inductive ReachErr where
  | unreachableState
  | unexitableState
deriving DecidableEq

/-- The states that are a source of some transition but a destination of
none (the unreachable_states of check_reachability). -/
def unreachableStates (ts : TransitionSet) : List Nat :=
  (sourcesOf ts).filter (fun s => !(destinationsOf ts).contains s)

/-- The states that are a destination of some transition but a source of
none (the unexitable_states of check_reachability). -/
def unexitableStates (ts : TransitionSet) : List Nat :=
  (destinationsOf ts).filter (fun s => !(sourcesOf ts).contains s)

/-- TransitionSet.check_reachability in transition.py: raises
UnreachableState if sources minus destinations is non-empty, then raises
UnexitableState if destinations minus sources is non-empty, and otherwise
returns True. -/
def checkReachability (ts : TransitionSet) : Except ReachErr Bool :=
  if !(unreachableStates ts).isEmpty then .error .unreachableState
  else if !(unexitableStates ts).isEmpty then .error .unexitableState
  else .ok true

/-- C1 counterexample: for the single transition from state 0 to state 1,
from_states with source = state 1, no destination and the default mode
returns the empty set, although the transition touches state 1 as its
destination; so the call does not return every transition touching the
given state at either endpoint. -/
theorem c1_counterexample :
    fromStates [⟨0, 0, 1, BExpr.var "x"⟩] (some 1) none "and" =
      Except.ok [] ∧
    ¬ (fromStates [⟨0, 0, 1, BExpr.var "x"⟩] (some 1) none "and" =
      Except.ok [⟨0, 0, 1, BExpr.var "x"⟩]) := by
  refine ⟨rfl, fun h => ?_⟩
  rw [show fromStates [⟨0, 0, 1, BExpr.var "x"⟩] (some 1) none "and" =
      Except.ok [] from rfl] at h
  simp at h

/-- C1 (amended): from_states with a source filter, no destination and the
default mode "and" returns exactly the transitions whose source is the
given state (the or-fallback unions the matches of the supplied filters
only, and the destination match set is empty). -/
theorem c1_from_states_source_only (ts : TransitionSet) (s : Nat) :
    fromStates ts (some s) none "and" =
      Except.ok (ts.filter (fun t => t.source == s)) := by
  simp [fromStates]

/-- C7 counterexample: an unrecognized mode with the destination filter
omitted does not raise ValueError; the call returns normally (here the
or-fallback union of the source matches). -/
theorem c7_counterexample :
    fromStates [⟨0, 0, 1, BExpr.var "x"⟩] (some 0) none "xor" =
      Except.ok [⟨0, 0, 1, BExpr.var "x"⟩] ∧
    fromStates ([] : TransitionSet) (some 0) none "xor" =
      Except.ok [] := ⟨rfl, rfl⟩

/-- C7 (amended): for every mode other than "and" and "or", from_states
fails with ValueError exactly when both the source and the destination
filter are supplied; with either filter omitted it returns normally. -/
theorem c7_bad_mode_value_error (ts : TransitionSet)
    (src dst : Option Nat) (mode : String)
    (hand : mode ≠ "and") (hor : mode ≠ "or") :
    fromStates ts src dst mode = Except.error PyErr.valueError ↔
      (src.isSome = true ∧ dst.isSome = true) := by
  cases src <;> cases dst <;>
    simp [fromStates, hand, hor]

/-- C7 witness: the amended theorem applied at the concrete mode "xor" with
both filters supplied. -/
theorem c7_witness :
    (("xor" : String) ≠ "and" ∧ ("xor" : String) ≠ "or") ∧
    (fromStates ([] : TransitionSet) (some 0) (some 1) "xor" =
        Except.error PyErr.valueError ↔
      ((some 0 : Option Nat).isSome = true ∧
        (some 1 : Option Nat).isSome = true)) :=
  ⟨⟨by decide, by decide⟩,
    c7_bad_mode_value_error [] (some 0) (some 1) "xor"
      (by decide) (by decide)⟩

/-- C8 counterexample: two Condition instances (identities 0 and 1) built
from the same expression have structurally equal expressions but do not
compare equal. -/
theorem c8_counterexample :
    conditionEq ⟨0, BExpr.var "x"⟩ ⟨1, BExpr.var "x"⟩ = false ∧
    (Condition.mk 0 (BExpr.var "x")).expr =
      (Condition.mk 1 (BExpr.var "x")).expr := ⟨rfl, rfl⟩

/-- C8 (amended): two Condition objects are equal iff they are the same
instance (object identity); no structural equality on the owned expressions
is defined. -/
theorem c8_condition_identity_eq (c d : Condition) :
    conditionEq c d = true ↔ c.id = d.id := by
  simp [conditionEq]

/-- C9 counterexample: discard applied to a non-State value returns
normally (the set unchanged) instead of failing with TypeError. -/
theorem c9_counterexample :
    stateSetDiscard [] (PyVal.other 0) = Except.ok [] := rfl

/-- C9 (amended): add rejects non-State values with TypeError, but discard
accepts any value and never raises: a non-State value leaves the set
unchanged, and every discard call returns normally. -/
theorem c9_filtered_add_discard :
    (∀ (ss : StateSet) (n : Nat),
      stateSetAdd ss (PyVal.other n) = Except.error PyErr.typeError) ∧
    (∀ (ss : StateSet) (n : Nat),
      stateSetDiscard ss (PyVal.other n) = Except.ok ss) ∧
    (∀ (ss : StateSet) (v : PyVal),
      ∃ r, stateSetDiscard ss v = Except.ok r) := by
  refine ⟨fun ss n => rfl, fun ss n => rfl, fun ss v => ?_⟩
  cases v <;> exact ⟨_, rfl⟩

/-- C1 witness: the amended theorem applied to a concrete one-transition
set filtered by its source state. -/
theorem c1_witness :
    fromStates [⟨0, 0, 1, BExpr.var "x"⟩] (some 0) none "and" =
      Except.ok ([⟨0, 0, 1, BExpr.var "x"⟩].filter (fun t => t.source == 0)) :=
  c1_from_states_source_only [⟨0, 0, 1, BExpr.var "x"⟩] 0

/-- C2 counterexample: two uniquely named states that both carry the single
output name u satisfy the spec's invariant (unique names, uniform output
counts), yet is_valid returns false, because the code compares each output
count against the number of distinct output names (1) rather than against
the other counts. -/
theorem c2_counterexample :
    isValid [⟨0, "a", [("u", 0)]⟩, ⟨1, "b", [("u", 0)]⟩] = false ∧
    specValidInvariant [⟨0, "a", [("u", 0)]⟩, ⟨1, "b", [("u", 0)]⟩] = true := by
  constructor <;> rfl

/-- C2 (amended): is_valid returns true iff (a) no two member states share
the same name and (b) every distinct output name appears on a number of
member states equal to the total number of distinct output names. -/
theorem c2_is_valid_characterization (ss : StateSet) :
    isValid ss = true ↔
      ((stateSetNameIdentifiers ss).Nodup ∧
        ∀ v ∈ (stateSetOutputIdentifiers ss).dedup,
          (stateSetOutputIdentifiers ss).count v =
            (stateSetOutputIdentifiers ss).dedup.length) := by
  have hlen : (stateSetNameIdentifiers ss).length = ss.length :=
    List.length_map ss State.name
  simp only [isValid, Bool.and_eq_true, List.all_eq_true, beq_iff_eq]
  constructor
  · rintro ⟨hout, hname⟩
    refine ⟨?_, hout⟩
    have hd : (stateSetNameIdentifiers ss).dedup =
        stateSetNameIdentifiers ss :=
      (stateSetNameIdentifiers ss).dedup_sublist.eq_of_length (by omega)
    exact List.dedup_eq_self.mp hd
  · rintro ⟨hnd, hout⟩
    refine ⟨hout, ?_⟩
    rw [List.Nodup.dedup hnd, hlen]

/-- C2 witness: the amended characterization applied to a concrete
one-state set, which is valid. -/
theorem c2_witness :
    isValid [⟨0, "a", [("u", 0)]⟩] = true :=
  (c2_is_valid_characterization [⟨0, "a", [("u", 0)]⟩]).mpr
    ⟨by decide, by decide⟩

/-- Whether an expression is the TRUE literal, stated propositionally. -/
theorem isLit_true_iff (e : BExpr) : isLit true e = true ↔ e = BExpr.lit true := by
  cases e <;> simp [isLit]

/-- C3: a transition survives evaluate(bindings) iff it was a member and
its condition, after substituting the bindings and simplifying, is the TRUE
literal; any other result (in particular one still containing variables)
excludes it. -/
theorem c3_evaluate_membership (ts : TransitionSet)
    (b : List (String × Bool)) (t : Transition) :
    t ∈ transitionSetEvaluate ts b ↔
      (t ∈ ts ∧ condEvaluate t.cond b = BExpr.lit true) := by
  simp [transitionSetEvaluate, List.mem_filter, exprKeptByEvaluate,
    isLit_true_iff]

/-- C3 witness: the membership characterization applied to a concrete
transition guarded by the variable x under the binding x = 1. -/
theorem c3_witness :
    (⟨0, 0, 1, BExpr.var "x"⟩ : Transition) ∈
      transitionSetEvaluate [⟨0, 0, 1, BExpr.var "x"⟩] [("x", true)] :=
  (c3_evaluate_membership [⟨0, 0, 1, BExpr.var "x"⟩] [("x", true)]
    ⟨0, 0, 1, BExpr.var "x"⟩).mpr ⟨List.mem_singleton.mpr rfl, rfl⟩

/-- C6: check_reachability fails with UnreachableState exactly when some
state is a source but never a destination; fails with UnexitableState
exactly when no such state exists but some state is a destination and never
a source (the UnreachableState check runs first); and returns true exactly
when both set differences are empty. -/
theorem c6_check_reachability (ts : TransitionSet) :
    (checkReachability ts = Except.error ReachErr.unreachableState ↔
      unreachableStates ts ≠ []) ∧
    (checkReachability ts = Except.error ReachErr.unexitableState ↔
      (unreachableStates ts = [] ∧ unexitableStates ts ≠ [])) ∧
    (checkReachability ts = Except.ok true ↔
      (unreachableStates ts = [] ∧ unexitableStates ts = [])) := by
  by_cases h1 : unreachableStates ts = [] <;>
    by_cases h2 : unexitableStates ts = [] <;>
      simp [checkReachability, h1, h2]

/-- C6 witness: the characterization applied to a concrete self-loop
transition set, for which check_reachability returns true. -/
theorem c6_witness :
    checkReachability [⟨0, 0, 0, BExpr.var "x"⟩] = Except.ok true :=
  (c6_check_reachability [⟨0, 0, 0, BExpr.var "x"⟩]).2.2.mpr ⟨rfl, rfl⟩

/-- C8 witness: the amended identity-equality theorem applied to two
references to the same instance (identity 5). -/
theorem c8_witness :
    conditionEq ⟨5, BExpr.lit true⟩ ⟨5, BExpr.lit true⟩ = true :=
  (c8_condition_identity_eq ⟨5, BExpr.lit true⟩ ⟨5, BExpr.lit true⟩).mpr rfl

/-- C9 witness: the amended theorem applied to a concrete non-State value
added to the empty set. -/
theorem c9_witness :
    stateSetAdd [] (PyVal.other 7) = Except.error PyErr.typeError :=
  c9_filtered_add_discard.1 [] 7

/-- C10: deleting by name from a StateSet leaves the membership unchanged;
the __delitem__ body only rebinds its local variable, so every state that
was a member before, including those with the deleted name, still is. -/
theorem c10_delitem_noop (ss : StateSet) (n : String) (st : State) :
    st ∈ stateSetDelItem ss n ↔ st ∈ ss := by
  simp [stateSetDelItem]

/-- C10 witness: deleting the name of the only member of a concrete
one-state set leaves that state a member. -/
theorem c10_witness :
    (⟨0, "a", []⟩ : State) ∈ stateSetDelItem [⟨0, "a", []⟩] "a" :=
  (c10_delitem_noop [⟨0, "a", []⟩] "a" ⟨0, "a", []⟩).mpr
    (List.mem_singleton.mpr rfl)

/-- C4 counterexample: for the compound operand x and x (one distinct
variable), the Not lowering emits the single-signal form rather than the
claimed negation-keyword form. -/
theorem c4_counterexample :
    vhdl (BExpr.not (BExpr.and [BExpr.var "x", BExpr.var "x"])) = "x='0'" ∧
    vhdl (BExpr.not (BExpr.and [BExpr.var "x", BExpr.var "x"])) ≠
      "not (" ++ convertR (BExpr.and [BExpr.var "x", BExpr.var "x"]) 3 ++ ")" :=
  ⟨rfl, by decide⟩

/-- C4 (amended): lowering a Not node yields the single-signal form
whenever the whole Not expression mentions exactly one distinct variable
(in particular when the operand is that single variable), and yields the
negation-keyword form exactly when the number of distinct variables is not
one. -/
theorem c4_not_lowering :
    (∀ (n : String) (last : Nat),
      convertR (BExpr.not (BExpr.var n)) last = n ++ "='0'") ∧
    (∀ (e : BExpr) (n : String) (last : Nat),
      symbols (BExpr.not e) = [n] →
      convertR (BExpr.not e) last = n ++ "='0'") ∧
    (∀ (e : BExpr) (last : Nat),
      (symbols (BExpr.not e)).length ≠ 1 →
      convertR (BExpr.not e) last = "not (" ++ convertR e 3 ++ ")") := by
  have he : ∀ (e : BExpr) (last : Nat),
      convertR (BExpr.not e) last =
        (match symbols (BExpr.not e) with
          | [n] => n ++ "='0'"
          | _ => "not (" ++ convertR e 3 ++ ")") := fun e last => rfl
  refine ⟨fun n last => rfl, fun e n last h => ?_, fun e last h => ?_⟩
  · rw [he, h]
  · rcases hs : symbols (BExpr.not e) with _ | ⟨a, _ | ⟨b, l⟩⟩
    · rw [he, hs]
    · exact absurd (by rw [hs]; rfl) h
    · rw [he, hs]

/-- C4 witness: the amended theorem applied to the single variable q at
demanded precedence 2 and to the two-variable compound operand x and y at
the top level. -/
theorem c4_witness :
    (symbols (BExpr.not (BExpr.var "q")) = ["q"] ∧
      convertR (BExpr.not (BExpr.var "q")) 2 = "q" ++ "='0'") ∧
    ((symbols (BExpr.not (BExpr.and [BExpr.var "x", BExpr.var "y"]))).length ≠ 1 ∧
      convertR (BExpr.not (BExpr.and [BExpr.var "x", BExpr.var "y"])) 0 =
        "not (" ++ convertR (BExpr.and [BExpr.var "x", BExpr.var "y"]) 3 ++ ")") :=
  ⟨⟨rfl, c4_not_lowering.2.1 (BExpr.var "q") "q" 2 rfl⟩,
    ⟨by decide,
      c4_not_lowering.2.2 (BExpr.and [BExpr.var "x", BExpr.var "y"]) 0 (by decide)⟩⟩

/-- A string never equals itself wrapped in parentheses (the two lengths
differ by two). -/
theorem paren_ne_self (s : String) : s ≠ "(" ++ s ++ ")" := by
  intro h
  have h2 := congrArg String.length h
  rw [String.length_append, String.length_append,
    show ("(" : String).length = 1 from rfl,
    show (")" : String).length = 1 from rfl] at h2
  omega

/-- C5: the two example lowerings hold, and in general a subexpression
with an operator at its root is parenthesized (its rendering under the
demanded precedence is its plain rendering wrapped in parentheses) iff the
operator's precedence is strictly below the demanded precedence; demanded
precedences range over 0..3. -/
theorem c5_lowering_precedence :
    parse "x&(y|~z)" =
      some (BExpr.and [BExpr.var "x",
        BExpr.or [BExpr.var "y", BExpr.not (BExpr.var "z")]]) ∧
    vhdl (BExpr.and [BExpr.var "x",
        BExpr.or [BExpr.var "y", BExpr.not (BExpr.var "z")]]) =
      "x='1' and (y='1' or z='0')" ∧
    parse "x|(y&z)" =
      some (BExpr.or [BExpr.var "x",
        BExpr.and [BExpr.var "y", BExpr.var "z"]]) ∧
    vhdl (BExpr.or [BExpr.var "x",
        BExpr.and [BExpr.var "y", BExpr.var "z"]]) =
      "x='1' or y='1' and z='1'" ∧
    ∀ (e : BExpr) (p : Nat), p ≤ 3 → isOperatorNode e = true →
      (convertR e p = "(" ++ convertR e 0 ++ ")" ↔ exprPrecedence e < p) := by
  refine ⟨rfl, rfl, rfl, rfl, fun e p hp hop => ?_⟩
  cases e with
  | lit b => simp [isOperatorNode] at hop
  | var n => simp [isOperatorNode] at hop
  | not e' =>
      simp only [exprPrecedence]
      constructor
      · intro hcontra
        rw [show convertR (BExpr.not e') p = convertR (BExpr.not e') 0
          from rfl] at hcontra
        exact absurd hcontra (paren_ne_self _)
      · intro h3
        exact absurd h3 (by omega)
  | and args =>
      rw [show convertR (BExpr.and args) p =
        (if 2 < p then
          "(" ++ String.intercalate " and " (convertList args 2) ++ ")"
         else String.intercalate " and " (convertList args 2)) from rfl,
        show convertR (BExpr.and args) 0 =
          String.intercalate " and " (convertList args 2) from rfl]
      simp only [exprPrecedence]
      by_cases h2 : 2 < p
      · simp [h2]
      · simp [h2]
        exact paren_ne_self _
  | or args =>
      rw [show convertR (BExpr.or args) p =
        (if 1 < p then
          "(" ++ String.intercalate " or " (convertList args 1) ++ ")"
         else String.intercalate " or " (convertList args 1)) from rfl,
        show convertR (BExpr.or args) 0 =
          String.intercalate " or " (convertList args 1) from rfl]
      simp only [exprPrecedence]
      by_cases h1 : 1 < p
      · simp [h1]
      · simp [h1]
        exact paren_ne_self _

/-- C5 witness: the parenthesization rule applied to the OR subexpression
of the first example under the AND-demanded precedence 2. -/
theorem c5_witness :
    ((2 : Nat) ≤ 3 ∧
      isOperatorNode (BExpr.or [BExpr.var "y", BExpr.not (BExpr.var "z")]) =
        true) ∧
    (convertR (BExpr.or [BExpr.var "y", BExpr.not (BExpr.var "z")]) 2 =
        "(" ++ convertR (BExpr.or [BExpr.var "y", BExpr.not (BExpr.var "z")]) 0
          ++ ")" ↔
      exprPrecedence (BExpr.or [BExpr.var "y", BExpr.not (BExpr.var "z")]) < 2) :=
  ⟨⟨by omega, rfl⟩,
    c5_lowering_precedence.2.2.2.2
      (BExpr.or [BExpr.var "y", BExpr.not (BExpr.var "z")]) 2 (by omega) rfl⟩

end FsmVhdl
